import Mathlib

/-!
Verification of the mautrix-go sync loop (src/client.go) and the message-send
checkpoint subsystem (src/appservice/message_send_checkpoint.go).

The Go code is shallowly embedded: the sync loop becomes a fuel-bounded
recursive function over an oracle environment that supplies the results of
the I/O calls (CreateFilter, SyncRequest, Syncer.OnFailedSync,
Syncer.ProcessResponse, and the value of getSyncingID observed at the
generation check of each iteration).  The function returns the trace of
externally visible calls it made, the final state of the Storer, and the
outcome of the loop (a fatal error, the nil return after a generation
mismatch, or fuel exhaustion while the real loop would still be running).
-/

namespace Mautrix

/-- The part of a /sync response the loop inspects: resSync.NextBatch.  The
rest of the response (rooms, presence, ...) is opaque to the loop and is
collapsed into one opaque field. -/
structure RespSync where
  NextBatch : String
  Rooms : String
deriving DecidableEq

/-- Response of CreateFilter. -/
structure RespCreateFilter where
  FilterID : String
deriving DecidableEq

/-- State held by the Storer as used by Sync: the next-batch token
(LoadNextBatch/SaveNextBatch) and the filter ID (LoadFilterID/SaveFilterID)
for the client's user. -/
structure Store where
  nextBatch : String
  filterID : String
deriving DecidableEq

/-- Externally visible calls made by Sync, in order. -/
inductive SyncEvent where
  | createFilterCall
  | saveFilterCall (filterID : String)
  | fetchCall (since : String) (filterID : String)
  | failedSyncCall (e : String)
  | sleepCall (duration : Nat)
  | saveNextBatchCall (token : String)
  | processCall (resp : RespSync) (since : String)
deriving DecidableEq

/-- How a run of Sync ended: a fatal error returned to the caller, the nil
return taken when the generation check fails, or fuel exhaustion (the real
loop would still be iterating). -/
inductive SyncOutcome where
  | fatal (e : String)
  | stoppedNil
  | fuelOut (nextBatch : String)
deriving DecidableEq

/-- Oracle environment: the results of the I/O performed by Sync, indexed by
iteration number where the call happens once per iteration.  observedGen is
the value cli.getSyncingID() returns at iteration k's generation check,
modelling concurrent StopSync / Sync calls on the shared counter. -/
structure SyncEnv where
  createFilter : Except String RespCreateFilter
  fetch : Nat → String → String → Except String RespSync
  onFailedSync : Nat → String → Nat × Option String
  processResponse : Nat → RespSync → String → Option String
  observedGen : Nat → Nat

/-- The for-loop of Client.Sync (src/client.go lines 143-170).  myGen is the
syncingID captured at the top of Sync; fid is the local filterID variable;
nextBatch is the local nextBatch variable; k counts iterations (indexing the
oracles); fuel bounds the recursion depth of this model only. -/
def syncLoop (env : SyncEnv) (myGen : Nat) :
    Nat → Store → String → String → Nat → List SyncEvent × Store × SyncOutcome
  | 0, store, nextBatch, _fid, _k => ([], store, .fuelOut nextBatch)
  | fuel+1, store, nextBatch, fid, k =>
    match env.fetch k nextBatch fid with
    | .error e =>
      match env.onFailedSync k e with
      | (_d, some err2) =>
        ([.fetchCall nextBatch fid, .failedSyncCall e], store, .fatal err2)
      | (d, none) =>
        let r := syncLoop env myGen fuel store nextBatch fid (k+1)
        (.fetchCall nextBatch fid :: .failedSyncCall e :: .sleepCall d :: r.1, r.2)
    | .ok resSync =>
      if env.observedGen k ≠ myGen then
        ([.fetchCall nextBatch fid], store, .stoppedNil)
      else
        let store2 := { store with nextBatch := resSync.NextBatch }
        match env.processResponse k resSync nextBatch with
        | some e =>
          ([.fetchCall nextBatch fid, .saveNextBatchCall resSync.NextBatch,
              .processCall resSync nextBatch], store2, .fatal e)
        | none =>
          let r := syncLoop env myGen fuel store2 resSync.NextBatch fid (k+1)
          (.fetchCall nextBatch fid :: .saveNextBatchCall resSync.NextBatch ::
              .processCall resSync nextBatch :: r.1, r.2)

/-- cli.incrementSyncingID: increments the counter and returns the new value.
State-passing model of the mutex-guarded field: (new counter, returned value). -/
def incrementSyncingID (syncingID : Nat) : Nat × Nat :=
  (syncingID + 1, syncingID + 1)

/-- cli.getSyncingID: reads the counter. -/
def getSyncingID (syncingID : Nat) : Nat :=
  syncingID

/-- Client.StopSync: advances the syncing state so that running Syncs
terminate (src/client.go lines 186-190). -/
def StopSync (syncingID : Nat) : Nat :=
  (incrementSyncingID syncingID).1

/-- Client.Sync (src/client.go lines 127-171): captures a fresh generation,
loads the token and filter ID from the Store, lazily creates and persists the
filter, then runs the loop. -/
def Sync (env : SyncEnv) (syncingID0 : Nat) (store : Store) (fuel : Nat) :
    List SyncEvent × Store × SyncOutcome :=
  let myGen := (incrementSyncingID syncingID0).2
  let nextBatch := store.nextBatch
  let filterID := store.filterID
  if filterID = "" then
    match env.createFilter with
    | .error e =>
      ([.createFilterCall], store, .fatal e)
    | .ok resFilter =>
      let store2 := { store with filterID := resFilter.FilterID }
      let r := syncLoop env myGen fuel store2 nextBatch resFilter.FilterID 0
      (.createFilterCall :: .saveFilterCall resFilter.FilterID :: r.1, r.2)
  else
    syncLoop env myGen fuel store nextBatch filterID 0

/-- Tokens passed to Store.SaveNextBatch, in trace order. -/
def savesOf : List SyncEvent → List String
  | [] => []
  | .saveNextBatchCall t :: rest => t :: savesOf rest
  | _ :: rest => savesOf rest

/-- Arguments of the calls to Syncer.ProcessResponse, in trace order:
(response, since-token the response was fetched with). -/
def processesOf : List SyncEvent → List (RespSync × String)
  | [] => []
  | .processCall r s :: rest => (r, s) :: processesOf rest
  | _ :: rest => processesOf rest

/-- Each ProcessResponse call is tagged with the token that was current
immediately before its fetch: the first with the initial token, each later
one with the NextBatch of the previous response. -/
def chainFrom : String → List (RespSync × String) → Bool
  | _, [] => true
  | prev, (r, s) :: rest => (s == prev) && chainFrom r.NextBatch rest

/-- Whether an event is one of the filter-resolution calls made before the
loop (CreateFilter / SaveFilterID). -/
def isFilterEv : SyncEvent → Bool
  | .createFilterCall => true
  | .saveFilterCall _ => true
  | _ => false

/-! ## MakeRequest error handling (src/client.go lines 209-276)

Only the response-handling tail of MakeRequest is modelled: the network
exchange is abstracted into the status code and body it produced, and
json.Unmarshal of the body into a RespError is abstracted into a decode
oracle (Go ignores the Unmarshal error and tests respErr.ErrCode != "";
a failed decode leaves the zero value, ErrCode = ""). -/

/-- Matrix-protocol structured error body. -/
structure RespError where
  ErrCode : String
  Err : String
deriving DecidableEq

/-- HTTPError as built by MakeRequest for non-2xx responses.  WrappedError
is Go's error interface; the only value MakeRequest ever wraps is a
RespError, so it is modelled as Option RespError. -/
structure HTTPError where
  WrappedError : Option RespError
  RespError : Option RespError
  Message : String
  Code : Nat
deriving DecidableEq

/-- Response handling of Client.MakeRequest (src/client.go lines 241-276):
returns the body contents together with the error, nil (none) on 2xx. -/
def MakeRequest (method urlPath : String) (statusCode : Nat) (contents : String)
    (decodeRespError : String → RespError) : String × Option HTTPError :=
  if statusCode / 100 ≠ 2 then
    let respErr := decodeRespError contents
    if respErr.ErrCode ≠ "" then
      let he : HTTPError :=
        { WrappedError := some respErr, RespError := some respErr,
          Message := "Failed to " ++ method ++ " JSON to " ++ urlPath,
          Code := statusCode }
      (contents, some he)
    else
      let he : HTTPError :=
        { WrappedError := none, RespError := none,
          Message := ("Failed to " ++ method ++ " JSON to " ++ urlPath ++ ": ") ++ contents,
          Code := statusCode }
      (contents, some he)
  else
    (contents, none)

/-! ## Concrete instances used to witness the theorems -/

/-- A fixed /sync response. -/
def respS1 : RespSync where
  NextBatch := "s1"
  Rooms := "payload1"

/-- Store state with a cached filter ID and no token yet. -/
def storeFid : Store where
  nextBatch := ""
  filterID := "fid"

/-- Store state with no cached filter ID. -/
def storeNoFid : Store where
  nextBatch := "nb0"
  filterID := ""

/-- Environment whose fetches all succeed with respS1 and whose processor
always fails; the generation counter reads 1. -/
def envProcFail : SyncEnv where
  createFilter := .ok { FilterID := "fid" }
  fetch := fun _ _ _ => .ok respS1
  onFailedSync := fun _ _ => (0, none)
  processResponse := fun _ _ _ => some "boom"
  observedGen := fun _ => 1

/-- Environment whose fetches all succeed with respS1 and whose processor
succeeds; the generation counter reads 1. -/
def envProcOk : SyncEnv where
  createFilter := .ok { FilterID := "fid" }
  fetch := fun _ _ _ => .ok respS1
  onFailedSync := fun _ _ => (0, none)
  processResponse := fun _ _ _ => none
  observedGen := fun _ => 1

/-- Environment whose fetches all fail and whose failure handler requests a
2-unit backoff. -/
def envFetchFailRetry : SyncEnv where
  createFilter := .ok { FilterID := "fid" }
  fetch := fun _ _ _ => .error "neterr"
  onFailedSync := fun _ _ => (2, none)
  processResponse := fun _ _ _ => none
  observedGen := fun _ => 1

/-- Environment whose fetches all fail and whose failure handler reports a
fatal error. -/
def envFetchFailFatal : SyncEnv where
  createFilter := .ok { FilterID := "fid" }
  fetch := fun _ _ _ => .error "neterr"
  onFailedSync := fun _ _ => (2, some "handlerfatal")
  processResponse := fun _ _ _ => none
  observedGen := fun _ => 1

/-- Environment whose filter creation fails. -/
def envFilterFail : SyncEnv where
  createFilter := .error "filterr"
  fetch := fun _ _ _ => .ok respS1
  onFailedSync := fun _ _ => (0, none)
  processResponse := fun _ _ _ => none
  observedGen := fun _ => 1

/-- Decode oracle representing a body that does not decode into a RespError
(json.Unmarshal leaves the zero value, ErrCode = ""). -/
def decodeNoCode : String → RespError :=
  fun _ => { ErrCode := "", Err := "" }

/-- Decode oracle representing a body that decodes into a structured Matrix
error. -/
def decodeMatrixErr : String → RespError :=
  fun _ => { ErrCode := "M_UNKNOWN", Err := "err" }

end Mautrix

namespace Appservice

/-! ## Message send checkpoints (src/appservice/message_send_checkpoint.go)

The enumerated string constants, the checkpoint structure and its
construction are embedded directly.  time.Now() is passed in as a parameter.
The dispatcher SendCheckpoints is embedded over an AppService model whose
oracle fields carry the results of the websocket send, the JSON encode, the
request construction and the HTTP POST. -/

/-- event.Event as consumed by the checkpoint constructor: identifiers, the
type string (field named Type in Go; Type is a Lean keyword, hence the
primed name), and the msgtype of the parsed message content
(evt.Content.AsMessage().MsgType). -/
structure Event where
  ID : String
  RoomID : String
  Type' : String
  contentMsgType : String
deriving DecidableEq

def EventMessage : String := "m.room.message"

def StatusSuccesss : String := "SUCCESS"

def StatusWillRetry : String := "WILL_RETRY"

def StatusPermFailure : String := "PERM_FAILURE"

def ReportedByAsmux : String := "ASMUX"

def ReportedByBridge : String := "BRIDGE"

/-- MessageSendCheckpoint (lines 49-60).  Fields not assigned by the Go
struct literal take Go's zero values (0, ""). -/
structure MessageSendCheckpoint where
  EventID : String
  RoomID : String
  Step : String
  Timestamp : Nat
  Status : String
  EventType : String
  ReportedBy : String
  RetryNum : Int
  MessageType : String
  Info : String
deriving DecidableEq

/-- NewMessageSendCheckpoint (lines 77-91). -/
def NewMessageSendCheckpoint (evt : Event) (step status : String) (now : Nat) :
    MessageSendCheckpoint :=
  let checkpoint : MessageSendCheckpoint :=
    { EventID := evt.ID, RoomID := evt.RoomID, Step := step, Timestamp := now,
      Status := status, EventType := evt.Type', ReportedBy := ReportedByBridge,
      RetryNum := 0, MessageType := "", Info := "" }
  if evt.Type' = EventMessage then
    { checkpoint with MessageType := evt.contentMsgType }
  else
    checkpoint

/-- The checkpoint constructed by AppService.SendMessageSendCheckpoint
(lines 93-96) before it is handed to the fire-and-forget dispatch. -/
def SendMessageSendCheckpoint (evt : Event) (step : String) (now : Nat) :
    MessageSendCheckpoint :=
  NewMessageSendCheckpoint evt step StatusSuccesss now

/-- The checkpoint constructed by AppService.SendErrorMessageSendCheckpoint
(lines 98-106); errMessage is err.Error(). -/
def SendErrorMessageSendCheckpoint (evt : Event) (step errMessage : String)
    (permanent : Bool) (now : Nat) : MessageSendCheckpoint :=
  let status := if permanent then StatusPermFailure else StatusWillRetry
  let checkpoint := NewMessageSendCheckpoint evt step status now
  { checkpoint with Info := errMessage }

/-- Outcome of the single HTTP POST issued by SendCheckpoints: a transport
error from http.DefaultClient.Do, or a response with its status and body. -/
inductive HTTPOutcome where
  | transportError (e : String)
  | response (statusCode : Nat) (body : String)
deriving DecidableEq

/-- The state of AppService consulted by SendCheckpoints, with oracle fields
for the results of its effectful calls. -/
structure AppService where
  hasWebsocket : Bool
  websocketResult : Option String
  MessageSendCheckpointEndpoint : String
  AppToken : String
  encodeResult : Option String
  newRequestResult : Option String
  httpResult : HTTPOutcome

/-- Network activity performed by SendCheckpoints. -/
inductive NetAction where
  | websocketSend (command : String)
  | httpPost (endpoint authorization : String) (timeoutSeconds : Nat)
deriving DecidableEq

/-- SendCheckpoints (lines 116-159): returns the network actions performed
and the error returned to the caller (none = nil). -/
def SendCheckpoints (as : AppService) (_checkpoints : List MessageSendCheckpoint) :
    List NetAction × Option String :=
  if as.hasWebsocket then
    ([.websocketSend "message_checkpoint"], as.websocketResult)
  else if as.MessageSendCheckpointEndpoint = "" then
    ([], none)
  else
    match as.encodeResult with
    | some e => ([], some ("failed to encode message send checkpoint JSON: " ++ e))
    | none =>
      match as.newRequestResult with
      | some e => ([], some e)
      | none =>
        let action := NetAction.httpPost as.MessageSendCheckpointEndpoint
          ("Bearer " ++ as.AppToken) 5
        match as.httpResult with
        | .transportError e =>
          ([action], some ("Failed to send bridge state update: " ++ e))
        | .response statusCode body =>
          if statusCode < 200 ∨ statusCode > 299 then
            ([action], some ("Unexpected status code " ++ toString statusCode ++
              " sending bridge state update: " ++ String.replace body "\n" "\\n"))
          else
            ([action], none)

/-! ## Concrete instances used to witness the theorems -/

/-- A concrete m.room.message event. -/
def evtMsg : Event where
  ID := "$evt1"
  RoomID := "!room1:example.com"
  Type' := "m.room.message"
  contentMsgType := "m.text"

/-- AppService with an established websocket whose send errors. -/
def asWebsocket : AppService where
  hasWebsocket := true
  websocketResult := some "wserr"
  MessageSendCheckpointEndpoint := "https://cp.example.com"
  AppToken := "tok"
  encodeResult := none
  newRequestResult := none
  httpResult := .response 200 ""

/-- AppService with no websocket and no checkpoint endpoint. -/
def asNoSink : AppService where
  hasWebsocket := false
  websocketResult := none
  MessageSendCheckpointEndpoint := ""
  AppToken := "tok"
  encodeResult := none
  newRequestResult := none
  httpResult := .response 200 ""

/-- AppService with no websocket and a configured checkpoint endpoint whose
POST yields 204. -/
def asHTTP : AppService where
  hasWebsocket := false
  websocketResult := none
  MessageSendCheckpointEndpoint := "https://cp.example.com"
  AppToken := "tok"
  encodeResult := none
  newRequestResult := none
  httpResult := .response 204 ""

end Appservice

namespace Mautrix

/-! ## Helper lemmas about the sync loop -/

/-- Every iteration of the loop starts with the long-poll fetch carrying the
current token and filter ID. -/
theorem syncLoop_head (env : SyncEnv) (g fuel : Nat) (st : Store)
    (nb fid : String) (k : Nat) :
    ((syncLoop env g (fuel+1) st nb fid k).1).head? = some (.fetchCall nb fid) := by
  simp only [syncLoop]
  split
  · split
    · rfl
    · rfl
  · split
    · rfl
    · split
      · rfl
      · rfl

/-- The loop body never performs the filter-resolution calls. -/
theorem syncLoop_no_filter_events (env : SyncEnv) (g : Nat) (fid : String) :
    ∀ (fuel : Nat) (st : Store) (nb : String) (k : Nat),
      ∀ ev ∈ (syncLoop env g fuel st nb fid k).1, isFilterEv ev = false := by
  intro fuel
  induction fuel with
  | zero =>
    intro st nb k ev hev
    simp [syncLoop] at hev
  | succ fuel ih =>
    intro st nb k ev hev
    simp only [syncLoop] at hev
    split at hev
    · split at hev
      · simp only [List.mem_cons, List.not_mem_nil, or_false] at hev
        rcases hev with rfl | rfl <;> rfl
      · simp only [List.mem_cons] at hev
        rcases hev with rfl | rfl | rfl | h
        · rfl
        · rfl
        · rfl
        · exact ih _ _ _ ev h
    · split at hev
      · simp only [List.mem_cons, List.not_mem_nil, or_false] at hev
        subst hev
        rfl
      · split at hev
        · simp only [List.mem_cons, List.not_mem_nil, or_false] at hev
          rcases hev with rfl | rfl | rfl <;> rfl
        · simp only [List.mem_cons] at hev
          rcases hev with rfl | rfl | rfl | h
          · rfl
          · rfl
          · rfl
          · exact ih _ _ _ ev h

/-- A stoppedNil outcome (Sync returning nil from inside the loop) arises
only from a successful fetch whose generation check observed a mismatch. -/
theorem syncLoop_stopped_from_success (env : SyncEnv) (g : Nat) (fid : String) :
    ∀ (fuel : Nat) (st : Store) (nb : String) (k : Nat),
      (syncLoop env g fuel st nb fid k).2.2 = .stoppedNil →
      ∃ j s r, env.fetch j s fid = .ok r ∧ env.observedGen j ≠ g := by
  intro fuel
  induction fuel with
  | zero =>
    intro st nb k h
    simp [syncLoop] at h
  | succ fuel ih =>
    intro st nb k h
    simp only [syncLoop] at h
    split at h
    · split at h
      · simp at h
      · exact ih _ _ _ h
    · rename_i resSync heq
      split at h
      · rename_i hg
        exact ⟨k, nb, resSync, heq, hg⟩
      · split at h
        · simp at h
        · exact ih _ _ _ h

/-! ## Claim theorems about the sync loop -/

/-- Claim C1: in every iteration where the fetch succeeds and the generation
check passes — whatever ProcessResponse then returns — the new token is
saved to the Store strictly before ProcessResponse is invoked: the
iteration's trace is fetch, save, process, then whatever follows.  If
ProcessResponse fails, the loop returns exactly that error with the fetched
token already persisted in the Store, and any Sync restarted from a store
holding that persisted token issues its first fetch from it rather than
refetching the failed payload. -/
theorem sync_saves_token_before_process
    (env : SyncEnv) (g : Nat) (st : Store) (nb fid : String) (k fuel : Nat)
    (r : RespSync)
    (hfetch : env.fetch k nb fid = .ok r)
    (hgen : env.observedGen k = g) :
    (∃ tail, (syncLoop env g (fuel+1) st nb fid k).1 =
        .fetchCall nb fid :: .saveNextBatchCall r.NextBatch ::
          .processCall r nb :: tail) ∧
    (∀ e : String, env.processResponse k r nb = some e →
      syncLoop env g (fuel+1) st nb fid k =
        ([.fetchCall nb fid, .saveNextBatchCall r.NextBatch, .processCall r nb],
          { st with nextBatch := r.NextBatch }, .fatal e)) ∧
    (∀ st2 : Store, st2.nextBatch = r.NextBatch → st2.filterID ≠ "" →
      ∀ (env2 : SyncEnv) (g2 fuel2 : Nat),
        ((Sync env2 g2 st2 (fuel2+1)).1).head? =
          some (.fetchCall r.NextBatch st2.filterID)) := by
  refine ⟨?_, ?_, ?_⟩
  · cases hp : env.processResponse k r nb with
    | some e =>
      exact ⟨[], by simp [syncLoop, hfetch, hgen, hp]⟩
    | none =>
      exact ⟨(syncLoop env g fuel { st with nextBatch := r.NextBatch }
          r.NextBatch fid (k+1)).1,
        by simp [syncLoop, hfetch, hgen, hp]⟩
  · intro e hp
    simp [syncLoop, hfetch, hgen, hp]
  · intro st2 htok hfid env2 g2 fuel2
    simp only [Sync]
    rw [if_neg hfid]
    rw [← htok]
    exact syncLoop_head env2 _ fuel2 _ _ _ 0

/-- Witness for C1: the save precedes the process call both when processing
succeeds and when it fails; on failure the loop returns the processor's
error with the token "s1" persisted, and a Sync restarted from a store
holding "s1" first fetches with "s1". -/
theorem sync_saves_token_before_process_witness :
    (∃ tail, (syncLoop envProcOk 1 (0+1) storeFid "" "fid" 0).1 =
        .fetchCall "" "fid" :: .saveNextBatchCall respS1.NextBatch ::
          .processCall respS1 "" :: tail) ∧
    (∃ tail, (syncLoop envProcFail 1 (0+1) storeFid "" "fid" 0).1 =
        .fetchCall "" "fid" :: .saveNextBatchCall respS1.NextBatch ::
          .processCall respS1 "" :: tail) ∧
    syncLoop envProcFail 1 (0+1) storeFid "" "fid" 0 =
      ([.fetchCall "" "fid", .saveNextBatchCall respS1.NextBatch, .processCall respS1 ""],
        { storeFid with nextBatch := respS1.NextBatch }, .fatal "boom") ∧
    ((Sync envProcFail 5 (Store.mk respS1.NextBatch "fid") (0+1)).1).head? =
      some (.fetchCall respS1.NextBatch "fid") := by
  have hok := sync_saves_token_before_process envProcOk 1 storeFid "" "fid" 0 0 respS1
    rfl rfl
  have h := sync_saves_token_before_process envProcFail 1 storeFid "" "fid" 0 0 respS1
    rfl rfl
  exact ⟨hok.1, h.1, h.2.1 "boom" rfl,
    h.2.2 (Store.mk respS1.NextBatch "fid") rfl (by decide) envProcFail 5 0⟩

/-- Claim C2: StopSync increments the generation counter; a cycle whose
captured generation no longer matches the observed one exits, once its
current fetch returns successfully, with the nil outcome, saving nothing and
processing nothing; and after a stop/start pair exactly the restarted
cycle's captured generation equals the counter while the prior cycle's does
not. -/
theorem stop_sync_generation_semantics :
    (∀ g : Nat, StopSync g = g + 1) ∧
    (∀ (env : SyncEnv) (myGen fuel : Nat) (st : Store) (nb fid : String)
        (k : Nat) (r : RespSync),
      env.fetch k nb fid = .ok r → env.observedGen k ≠ myGen →
      syncLoop env myGen (fuel+1) st nb fid k =
        ([.fetchCall nb fid], st, .stoppedNil)) ∧
    (∀ g0 : Nat,
      (incrementSyncingID (StopSync (incrementSyncingID g0).1)).2 =
        getSyncingID (incrementSyncingID (StopSync (incrementSyncingID g0).1)).1 ∧
      (incrementSyncingID g0).2 ≠
        getSyncingID (incrementSyncingID (StopSync (incrementSyncingID g0).1)).1) := by
  refine ⟨fun g => rfl, ?_, fun g0 => ⟨rfl, ?_⟩⟩
  · intro env myGen fuel st nb fid k r hfetch hg
    simp [syncLoop, hfetch, hg]
  · simp [incrementSyncingID, StopSync, getSyncingID]

/-- Witness for C2: a concrete superseded cycle (captured generation 2,
observed generation 1) exits with the nil outcome after its fetch returns,
and the stop/start arithmetic at counter 0. -/
theorem stop_sync_generation_semantics_witness :
    StopSync 7 = 8 ∧
    syncLoop envProcFail 2 (3+1) storeFid "" "fid" 0 =
      ([.fetchCall "" "fid"], storeFid, .stoppedNil) ∧
    ((incrementSyncingID (StopSync (incrementSyncingID 0).1)).2 =
        getSyncingID (incrementSyncingID (StopSync (incrementSyncingID 0).1)).1 ∧
      (incrementSyncingID 0).2 ≠
        getSyncingID (incrementSyncingID (StopSync (incrementSyncingID 0).1)).1) :=
  ⟨stop_sync_generation_semantics.1 7,
    stop_sync_generation_semantics.2.1 envProcFail 2 3 storeFid "" "fid" 0 respS1
      rfl (by decide),
    stop_sync_generation_semantics.2.2 0⟩

/-- Claim C3: on a fetch-failure iteration the loop consults OnFailedSync;
if the handler returns a non-nil error the loop terminates with exactly that
error, otherwise it sleeps for the returned duration and refetches with the
same continuation token (the recursive call receives the unchanged nb). -/
theorem sync_fetch_failure_handling
    (env : SyncEnv) (g fuel : Nat) (st : Store) (nb fid : String) (k : Nat)
    (e : String)
    (hfetch : env.fetch k nb fid = .error e) :
    (∀ (d : Nat) (e2 : String), env.onFailedSync k e = (d, some e2) →
      syncLoop env g (fuel+1) st nb fid k =
        ([.fetchCall nb fid, .failedSyncCall e], st, .fatal e2)) ∧
    (∀ d : Nat, env.onFailedSync k e = (d, none) →
      syncLoop env g (fuel+1) st nb fid k =
        (.fetchCall nb fid :: .failedSyncCall e :: .sleepCall d ::
            (syncLoop env g fuel st nb fid (k+1)).1,
          (syncLoop env g fuel st nb fid (k+1)).2)) := by
  constructor
  · intro d e2 hfail
    simp [syncLoop, hfetch, hfail]
  · intro d hfail
    simp [syncLoop, hfetch, hfail]

/-- Witness for C3, realising the spec's example scenario: with current token
"s1" the fetch fails; a fatal handler terminates the loop with its error,
and a backoff handler sleeps 2 units and refetches with the same "s1". -/
theorem sync_fetch_failure_handling_witness :
    syncLoop envFetchFailFatal 1 (2+1) storeFid "s1" "fid" 0 =
      ([.fetchCall "s1" "fid", .failedSyncCall "neterr"], storeFid,
        .fatal "handlerfatal") ∧
    syncLoop envFetchFailRetry 1 (2+1) storeFid "s1" "fid" 0 =
      (.fetchCall "s1" "fid" :: .failedSyncCall "neterr" :: .sleepCall 2 ::
          (syncLoop envFetchFailRetry 1 2 storeFid "s1" "fid" 1).1,
        (syncLoop envFetchFailRetry 1 2 storeFid "s1" "fid" 1).2) :=
  ⟨(sync_fetch_failure_handling envFetchFailFatal 1 2 storeFid "s1" "fid" 0 "neterr"
      rfl).1 2 "handlerfatal" rfl,
    (sync_fetch_failure_handling envFetchFailRetry 1 2 storeFid "s1" "fid" 0 "neterr"
      rfl).2 2 rfl⟩

/-- Claim C4: within one sync cycle, the Store observes SaveNextBatch calls
exactly in fetch order (one save per processed response, carrying its
NextBatch token), ProcessResponse is called exactly once per saved payload
in that same order, and each ProcessResponse call is tagged with the token
current immediately before its fetch. -/
theorem syncLoop_order (env : SyncEnv) (g : Nat) (fid : String) :
    ∀ (fuel : Nat) (st : Store) (nb : String) (k : Nat),
      savesOf (syncLoop env g fuel st nb fid k).1 =
        (processesOf (syncLoop env g fuel st nb fid k).1).map (fun p => p.1.NextBatch) ∧
      chainFrom nb (processesOf (syncLoop env g fuel st nb fid k).1) = true := by
  intro fuel
  induction fuel with
  | zero =>
    intro st nb k
    simp [syncLoop, savesOf, processesOf, chainFrom]
  | succ fuel ih =>
    intro st nb k
    simp only [syncLoop]
    split
    · split
      · simp [savesOf, processesOf, chainFrom]
      · obtain ⟨ih1, ih2⟩ := ih st nb (k+1)
        simp [savesOf, processesOf, chainFrom, ih1, ih2]
    · rename_i resSync heq
      split
      · simp [savesOf, processesOf, chainFrom]
      · split
        · simp [savesOf, processesOf, chainFrom]
        · obtain ⟨ih1, ih2⟩ :=
            ih { st with nextBatch := resSync.NextBatch } resSync.NextBatch (k+1)
          simp [savesOf, processesOf, chainFrom, ih1, ih2]

/-- Witness for C4 in the environment where the first process call fails:
the saves and the process calls of the resulting trace line up as stated. -/
theorem syncLoop_order_witness :
    savesOf (syncLoop envProcFail 1 3 storeFid "" "fid" 0).1 =
      (processesOf (syncLoop envProcFail 1 3 storeFid "" "fid" 0).1).map
        (fun p => p.1.NextBatch) ∧
    chainFrom "" (processesOf (syncLoop envProcFail 1 3 storeFid "" "fid" 0).1) = true :=
  syncLoop_order envProcFail 1 "fid" 3 storeFid "" 0

/-- Claim C10: the generation comparison happens only on the success path.
On a fetch-failure iteration even a superseded cycle (the observed
generation already differs from the captured one) still consults
OnFailedSync and either propagates the handler's fatal error or sleeps and
refetches with the same token; the nil return via the generation check can
only ever follow a successful fetch. -/
theorem generation_check_success_path_only
    (env : SyncEnv) (g fuel : Nat) (st : Store) (nb fid : String) (k : Nat)
    (e : String)
    (hfetch : env.fetch k nb fid = .error e)
    (hstale : env.observedGen k ≠ g) :
    (∀ d : Nat, env.onFailedSync k e = (d, none) →
      syncLoop env g (fuel+1) st nb fid k =
        (.fetchCall nb fid :: .failedSyncCall e :: .sleepCall d ::
            (syncLoop env g fuel st nb fid (k+1)).1,
          (syncLoop env g fuel st nb fid (k+1)).2)) ∧
    (∀ (d : Nat) (e2 : String), env.onFailedSync k e = (d, some e2) →
      (syncLoop env g (fuel+1) st nb fid k).2.2 = .fatal e2) ∧
    (∀ (fuel2 : Nat) (st2 : Store) (nb2 : String) (k2 : Nat),
      (syncLoop env g fuel2 st2 nb2 fid k2).2.2 = .stoppedNil →
      ∃ j s r, env.fetch j s fid = .ok r ∧ env.observedGen j ≠ g) := by
  refine ⟨?_, ?_, ?_⟩
  · intro d hfail
    simp [syncLoop, hfetch, hfail]
  · intro d e2 hfail
    simp [syncLoop, hfetch, hfail]
  · intro fuel2 st2 nb2 k2 h
    exact syncLoop_stopped_from_success env g fid fuel2 st2 nb2 k2 h

/-- Witness for C10: a superseded cycle (captured generation 2, observed
generation 1) whose fetch fails still backs off and refetches "s1", and one
with a fatal handler still terminates with the handler's error, not the nil
stop. -/
theorem generation_check_success_path_only_witness :
    syncLoop envFetchFailRetry 2 (0+1) storeFid "s1" "fid" 0 =
      (.fetchCall "s1" "fid" :: .failedSyncCall "neterr" :: .sleepCall 2 ::
          (syncLoop envFetchFailRetry 2 0 storeFid "s1" "fid" 1).1,
        (syncLoop envFetchFailRetry 2 0 storeFid "s1" "fid" 1).2) ∧
    (syncLoop envFetchFailFatal 2 (0+1) storeFid "s1" "fid" 0).2.2 =
      .fatal "handlerfatal" := by
  have h := generation_check_success_path_only envFetchFailRetry 2 0 storeFid "s1"
    "fid" 0 "neterr" rfl (by decide)
  have h2 := generation_check_success_path_only envFetchFailFatal 2 0 storeFid "s1"
    "fid" 0 "neterr" rfl (by decide)
  exact ⟨h.1 2 rfl, h2.2.1 2 "handlerfatal" rfl⟩

/-- Claim C7: for a non-2xx response whose body does not decode into a
RespError with non-empty ErrCode, MakeRequest returns an HTTPError whose
message ends with the raw body verbatim and wraps nothing; when the body
does decode with a non-empty ErrCode, the RespError is preserved as the
wrapped causal error and the body is not appended to the message. -/
theorem make_request_error_body
    (method urlPath : String) (statusCode : Nat) (contents : String)
    (decodeRespError : String → RespError)
    (hs : statusCode / 100 ≠ 2) :
    ((decodeRespError contents).ErrCode = "" →
      (MakeRequest method urlPath statusCode contents decodeRespError).2 =
        some (HTTPError.mk none none
          (("Failed to " ++ method ++ " JSON to " ++ urlPath ++ ": ") ++ contents)
          statusCode)) ∧
    ((decodeRespError contents).ErrCode ≠ "" →
      (MakeRequest method urlPath statusCode contents decodeRespError).2 =
        some (HTTPError.mk (some (decodeRespError contents))
          (some (decodeRespError contents))
          ("Failed to " ++ method ++ " JSON to " ++ urlPath)
          statusCode)) := by
  constructor <;> intro h <;> simp [MakeRequest, hs, h]

/-- Witness for C7: a 502 with an HTML body that does not decode keeps the
body verbatim at the end of the message; a 403 with a structured Matrix
error keeps the RespError as the wrapped error. -/
theorem make_request_error_body_witness :
    (MakeRequest "GET" "/sync" 502 "<html>bad gateway</html>" decodeNoCode).2 =
      some (HTTPError.mk none none
        (("Failed to " ++ "GET" ++ " JSON to " ++ "/sync" ++ ": ") ++
          "<html>bad gateway</html>") 502) ∧
    (MakeRequest "GET" "/sync" 403 "irrelevant" decodeMatrixErr).2 =
      some (HTTPError.mk (some (decodeMatrixErr "irrelevant"))
        (some (decodeMatrixErr "irrelevant"))
        ("Failed to " ++ "GET" ++ " JSON to " ++ "/sync") 403) :=
  ⟨(make_request_error_body "GET" "/sync" 502 "<html>bad gateway</html>" decodeNoCode
      (by decide)).1 rfl,
    (make_request_error_body "GET" "/sync" 403 "irrelevant" decodeMatrixErr
      (by decide)).2 (by decide)⟩

/-- Claim C8: Sync loads the token and filter ID from the Store; exactly
when the loaded filter ID is empty it creates a filter server-side and
persists the resulting ID before entering the loop; a filter-creation
failure is returned immediately, with no fetch performed (the whole trace is
the single CreateFilter call); when the loaded filter ID is non-empty no
filter-resolution call appears in the trace at all. -/
theorem sync_filter_resolution (env : SyncEnv) (g0 : Nat) (st : Store) (fuel : Nat) :
    (st.filterID = "" → ∀ e : String, env.createFilter = .error e →
      Sync env g0 st fuel = ([.createFilterCall], st, .fatal e)) ∧
    (st.filterID = "" → ∀ f : RespCreateFilter, env.createFilter = .ok f →
      Sync env g0 st fuel =
        (.createFilterCall :: .saveFilterCall f.FilterID ::
            (syncLoop env (g0+1) fuel { st with filterID := f.FilterID }
              st.nextBatch f.FilterID 0).1,
          (syncLoop env (g0+1) fuel { st with filterID := f.FilterID }
            st.nextBatch f.FilterID 0).2)) ∧
    (st.filterID ≠ "" →
      ∀ ev ∈ (Sync env g0 st fuel).1, isFilterEv ev = false) := by
  refine ⟨?_, ?_, ?_⟩
  · intro hf e hcf
    simp [Sync, hf, hcf]
  · intro hf f hcf
    simp [Sync, hf, hcf, incrementSyncingID]
  · intro hf ev hev
    simp only [Sync] at hev
    rw [if_neg hf] at hev
    exact syncLoop_no_filter_events env _ _ fuel st st.nextBatch 0 ev hev

/-- Witness for C8: with an empty stored filter ID a failing CreateFilter
aborts Sync before any fetch; a succeeding CreateFilter is persisted and the
loop entered; with a cached filter ID the first trace event is the fetch,
not a filter-resolution call. -/
theorem sync_filter_resolution_witness :
    Sync envFilterFail 0 storeNoFid 2 = ([.createFilterCall], storeNoFid, .fatal "filterr") ∧
    Sync envProcFail 0 storeNoFid 1 =
      (.createFilterCall :: .saveFilterCall "fid" ::
          (syncLoop envProcFail (0+1) 1 { storeNoFid with filterID := "fid" }
            storeNoFid.nextBatch "fid" 0).1,
        (syncLoop envProcFail (0+1) 1 { storeNoFid with filterID := "fid" }
          storeNoFid.nextBatch "fid" 0).2) ∧
    isFilterEv (.fetchCall "" "fid") = false := by
  have h1 := sync_filter_resolution envFilterFail 0 storeNoFid 2
  have h2 := sync_filter_resolution envProcFail 0 storeNoFid 1
  have h3 := sync_filter_resolution envProcFail 0 storeFid 1
  exact ⟨h1.1 rfl "filterr" rfl,
    h2.2.1 rfl (RespCreateFilter.mk "fid") rfl,
    h3.2.2 (by decide) (.fetchCall "" "fid") (by decide)⟩

end Mautrix

namespace Appservice

/-! ## Claim theorems about the checkpoint subsystem -/

/-- Claim C5: success checkpoints carry empty Info; error checkpoints carry
status WILL_RETRY unless the permanent flag is set (then PERM_FAILURE) and
Info equal to the stringified underlying error; and every checkpoint built
by NewMessageSendCheckpoint reports ReportedBy as the bridge value, never
the multiplexer value. -/
theorem checkpoint_construction_rules
    (evt : Event) (step errMessage status : String) (permanent : Bool) (now : Nat) :
    (SendMessageSendCheckpoint evt step now).Info = "" ∧
    (SendMessageSendCheckpoint evt step now).Status = StatusSuccesss ∧
    (SendErrorMessageSendCheckpoint evt step errMessage permanent now).Status =
      (if permanent then StatusPermFailure else StatusWillRetry) ∧
    (SendErrorMessageSendCheckpoint evt step errMessage permanent now).Info =
      errMessage ∧
    (NewMessageSendCheckpoint evt step status now).ReportedBy = ReportedByBridge ∧
    (NewMessageSendCheckpoint evt step status now).ReportedBy ≠ ReportedByAsmux := by
  by_cases ht : evt.Type' = EventMessage <;>
    simp [SendMessageSendCheckpoint, SendErrorMessageSendCheckpoint,
      NewMessageSendCheckpoint, ht, ReportedByBridge, ReportedByAsmux]

/-- Witness for C5 at a concrete message event with the permanent flag set. -/
theorem checkpoint_construction_rules_witness :
    (SendMessageSendCheckpoint evtMsg "BRIDGE" 42).Info = "" ∧
    (SendMessageSendCheckpoint evtMsg "BRIDGE" 42).Status = StatusSuccesss ∧
    (SendErrorMessageSendCheckpoint evtMsg "BRIDGE" "remote send failed" true 42).Status =
      (if true then StatusPermFailure else StatusWillRetry) ∧
    (SendErrorMessageSendCheckpoint evtMsg "BRIDGE" "remote send failed" true 42).Info =
      "remote send failed" ∧
    (NewMessageSendCheckpoint evtMsg "BRIDGE" "SUCCESS" 42).ReportedBy = ReportedByBridge ∧
    (NewMessageSendCheckpoint evtMsg "BRIDGE" "SUCCESS" 42).ReportedBy ≠ ReportedByAsmux :=
  checkpoint_construction_rules evtMsg "BRIDGE" "remote send failed" "SUCCESS" true 42

/-- Claim C9: every checkpoint constructed by NewMessageSendCheckpoint, and
hence by both Send helpers, has RetryNum equal to 0. -/
theorem checkpoint_retry_num_zero
    (evt : Event) (step status errMessage : String) (permanent : Bool) (now : Nat) :
    (NewMessageSendCheckpoint evt step status now).RetryNum = 0 ∧
    (SendMessageSendCheckpoint evt step now).RetryNum = 0 ∧
    (SendErrorMessageSendCheckpoint evt step errMessage permanent now).RetryNum = 0 := by
  by_cases ht : evt.Type' = EventMessage <;>
    simp [NewMessageSendCheckpoint, SendMessageSendCheckpoint,
      SendErrorMessageSendCheckpoint, ht]

/-- Witness for C9 at a concrete message event. -/
theorem checkpoint_retry_num_zero_witness :
    (NewMessageSendCheckpoint evtMsg "REMOTE" "WILL_RETRY" 42).RetryNum = 0 ∧
    (SendMessageSendCheckpoint evtMsg "REMOTE" 42).RetryNum = 0 ∧
    (SendErrorMessageSendCheckpoint evtMsg "REMOTE" "remote send failed" false 42).RetryNum = 0 :=
  checkpoint_retry_num_zero evtMsg "REMOTE" "WILL_RETRY" "remote send failed" false 42

/-- Claim C6: SendCheckpoints tries sinks in fixed order with first match
winning: with a websocket it sends one framed command and returns that
send's result; otherwise an empty HTTP endpoint means no network activity
and a nil return; otherwise (serialization and request construction
succeeding) it performs exactly one POST to the endpoint with the bearer
token and the 5-second deadline, returning nil exactly when the response
arrived with a 2xx status. -/
theorem send_checkpoints_dispatch (as : AppService) (cps : List MessageSendCheckpoint) :
    (as.hasWebsocket = true →
      SendCheckpoints as cps =
        ([.websocketSend "message_checkpoint"], as.websocketResult)) ∧
    (as.hasWebsocket = false → as.MessageSendCheckpointEndpoint = "" →
      SendCheckpoints as cps = ([], none)) ∧
    (as.hasWebsocket = false → as.MessageSendCheckpointEndpoint ≠ "" →
      as.encodeResult = none → as.newRequestResult = none →
      (SendCheckpoints as cps).1 =
        [.httpPost as.MessageSendCheckpointEndpoint ("Bearer " ++ as.AppToken) 5] ∧
      ((SendCheckpoints as cps).2 = none ↔
        ∃ statusCode body, as.httpResult = .response statusCode body ∧
          200 ≤ statusCode ∧ statusCode ≤ 299)) := by
  refine ⟨?_, ?_, ?_⟩
  · intro hw
    simp [SendCheckpoints, hw]
  · intro hw he
    simp [SendCheckpoints, hw, he]
  · intro hw he henc hreq
    cases hr : as.httpResult with
    | transportError e =>
      refine ⟨by simp [SendCheckpoints, hw, he, henc, hreq, hr], ?_, ?_⟩
      · intro hnone
        exfalso
        simp [SendCheckpoints, hw, he, henc, hreq, hr] at hnone
      · rintro ⟨a, b, hab, ha1, ha2⟩
        cases hab
    | response statusCode body =>
      by_cases hst : statusCode < 200 ∨ statusCode > 299
      · refine ⟨by simp [SendCheckpoints, hw, he, henc, hreq, hr, hst], ?_, ?_⟩
        · intro hnone
          exfalso
          simp [SendCheckpoints, hw, he, henc, hreq, hr, hst] at hnone
        · rintro ⟨a, b, hab, ha1, ha2⟩
          injection hab with hx hy
          subst hx
          exfalso
          omega
      · refine ⟨by simp [SendCheckpoints, hw, he, henc, hreq, hr, hst], ?_, ?_⟩
        · intro _hnone
          exact ⟨statusCode, body, rfl, by omega, by omega⟩
        · intro _hex
          simp [SendCheckpoints, hw, he, henc, hreq, hr, hst]

/-- Witness for C6: a websocket AppService returns the websocket send's
result with one framed command; one with neither sink returns nil with no
network action; one with an endpoint performs the single authenticated
5-second POST and returns nil on the 204 response. -/
theorem send_checkpoints_dispatch_witness :
    SendCheckpoints asWebsocket [] =
      ([.websocketSend "message_checkpoint"], some "wserr") ∧
    SendCheckpoints asNoSink [] = ([], none) ∧
    (SendCheckpoints asHTTP []).1 =
      [.httpPost "https://cp.example.com" ("Bearer " ++ "tok") 5] ∧
    (SendCheckpoints asHTTP []).2 = none := by
  have h1 := send_checkpoints_dispatch asWebsocket []
  have h2 := send_checkpoints_dispatch asNoSink []
  have h3 := send_checkpoints_dispatch asHTTP []
  refine ⟨h1.1 rfl, h2.2.1 rfl rfl, (h3.2.2 rfl (by decide) rfl rfl).1, ?_⟩
  exact ((h3.2.2 rfl (by decide) rfl rfl).2).mpr ⟨204, "", rfl, by decide, by decide⟩

end Appservice
